import Mathlib

/-
  Shallow embedding of the appointment lifecycle / patient-status core of the
  MediCare backend (src/controllers/appointmentController.js, the appointment
  schema in src/unnamed/part_005, the patient schema in src/models/Patient.js,
  and the no-show sweep script in src/unnamed/part_003).

  Conventions of the embedding:
  - Timestamps are integers (milliseconds since epoch), as in JS Date arithmetic.
  - Calendar dates (stored as sortable yyyy-MM-dd strings in the source) are
    embedded as integer day numbers; lexicographic comparison of such strings
    coincides with integer comparison of day numbers.  Slot times (HH:mm
    strings) are embedded as minutes within the day.
  - Statuses and outcomes are kept as strings, matching the JS string enums.
  - Mongo object ids are natural numbers; a missing/unset reference is none.
  - The Mongo stores are lists of records; findOne/findById is List.find?,
    save is replacement by id.
  - Fallible external effects that the source wraps in try/catch (the
    patient.save call inside the patient-sync blocks) are modelled by a
    boolean parameter patientSaveOk: when false the save throws and the
    catch branch of the source runs.
-/

namespace MediCare

/-- Milliseconds in a day: 1000 * 60 * 60 * 24, as in the treatment-days
computation in updateTreatmentOutcome. -/
def msPerDay : Int := 86400000

/-- Milliseconds in a minute, used by the 30-minute no-show threshold. -/
def msPerMinute : Int := 60000

/-- Activity/audit record (the fields of the ActivityService.logActivity /
Activity.create payloads that the lifecycle core sets; metadata keys are
flattened into optional fields, absent keys are none). -/
structure Activity where
  action : String
  subject : String
  subjectId : Nat
  patientId : Option Nat := none
  hospitalId : Option Nat := none
  description : String := ""
  severity : Option String := none
  metaPreviousStatus : Option String := none
  metaNewStatus : Option String := none
  metaTreatmentOutcome : Option String := none
  metaPatientStatusChanged : Option Bool := none
deriving Repr, DecidableEq

/-- Entry of the embedded appointments array on a patient document
(src/models/Patient.js lines 45-56). -/
structure ApptEntry where
  doctor : Nat
  date : Int
  status : String
deriving Repr, DecidableEq

/-- Appointment document (src/unnamed/part_005).  treatmentOutcome is an
optional string: the schema default is "ongoing", and updateTreatmentOutcome
can unset it (assigning undefined). -/
structure Appointment where
  id : Nat
  patientId : Option Nat
  doctorId : Nat
  hospitalId : Nat
  date : Int
  time : Int
  type : String
  status : String
  noShowReason : String := ""
  notes : String := ""
  diagnosis : Option String := none
  disease : Option String := none
  treatmentOutcome : Option String := some "ongoing"
  treatmentEndDate : Option Int := none
  checkInTime : Option Int := none
  consultationStartTime : Option Int := none
  isFollowUp : Bool := false
  needsTimeSlot : Bool := false
  originalAppointmentId : Option Nat := none
  relatedReportId : Option Nat := none
deriving Repr, DecidableEq

/-- Patient document (src/models/Patient.js); only the lifecycle-relevant
fields are embedded. -/
structure Patient where
  id : Nat
  name : String
  email : String
  phone : String := ""
  gender : String := "not_specified"
  bloodGroup : String := "Not Specified"
  status : String := "active"
  lastStatusChangeDate : Option Int := none
  treatmentDays : Int := 0
  hospital : Option Nat := none
  appointments : List ApptEntry := []
deriving Repr, DecidableEq

/-- Doctor document: id plus the optional reference to a user account. -/
structure Doctor where
  id : Nat
  userId : Option Nat
deriving Repr, DecidableEq

/-- User account: role and status drive authorization and the
doctor-availability check in bookAppointment. -/
structure User where
  id : Nat
  name : String := "User"
  role : String := "user"
  status : String := "active"
deriving Repr, DecidableEq

/-- The persistent state: the Mongo collections touched by the lifecycle
core, plus fresh-id counters standing for ObjectId generation. -/
structure Store where
  appointments : List Appointment
  patients : List Patient
  doctors : List Doctor
  users : List User
  activities : List Activity
  nextApptId : Nat
  nextPatientId : Nat
deriving Repr, DecidableEq

namespace Store

/-- Appointment.findById -/
def findAppointmentById (st : Store) (i : Nat) : Option Appointment :=
  st.appointments.find? (fun a => a.id == i)

/-- Patient.findById -/
def findPatientById (st : Store) (i : Nat) : Option Patient :=
  st.patients.find? (fun p => p.id == i)

/-- Patient.findOne by email -/
def findPatientByEmail (st : Store) (e : String) : Option Patient :=
  st.patients.find? (fun p => p.email == e)

/-- Doctor.findById -/
def findDoctorById (st : Store) (i : Nat) : Option Doctor :=
  st.doctors.find? (fun d => d.id == i)

/-- User.findById -/
def findUserById (st : Store) (i : Nat) : Option User :=
  st.users.find? (fun u => u.id == i)

/-- patient.save: replace the patient document with the given id. -/
def savePatient (st : Store) (p : Patient) : Store :=
  { st with patients := st.patients.map (fun q => if q.id == p.id then p else q) }

/-- appointment.save / findByIdAndUpdate: replace the appointment document. -/
def saveAppointment (st : Store) (a : Appointment) : Store :=
  { st with appointments := st.appointments.map (fun b => if b.id == a.id then a else b) }

/-- Activity.create / ActivityService.logActivity: append an audit entry. -/
def pushActivity (st : Store) (act : Activity) : Store :=
  { st with activities := st.activities ++ [act] }

end Store

/-- The appointment status enum of the schema. -/
def validAppointmentStatus (s : String) : Bool :=
  s == "pending" || s == "confirmed" || s == "cancelled" ||
    s == "completed" || s == "not_appeared"

/-- The treatment outcome enum checked in updateTreatmentOutcome. -/
def validOutcome (s : String) : Bool :=
  s == "successful" || s == "partial" || s == "unsuccessful" || s == "ongoing"

/-- JS truthiness fallback x || y on optional strings (empty string is falsy). -/
def jsOrStr (a b : Option String) : Option String :=
  match a with
  | some s => if s == "" then b else some s
  | none => b

/-- The patientDetails object of a booking request body
(appointmentController.js lines 58-78). -/
structure PatientDetails where
  name : Option String := none
  email : Option String := none
  phone : Option String := none
  gender : Option String := none
  bloodGroup : Option String := none
deriving Repr, DecidableEq

/-- Body of POST /api/appointments for bookAppointment; none stands for a
missing or empty (falsy) field. -/
structure BookRequest where
  doctorId : Option Nat := none
  patientDetails : Option PatientDetails := none
  hospitalId : Option Nat := none
  date : Option Int := none
  time : Option Int := none
  type : Option String := none
  notes : Option String := none
deriving Repr, DecidableEq

/-- Result of bookAppointment: the created appointment, or the message of the
thrown error (the HTTP code the source finally emits goes through the catch
at line 204 and is not part of this model). -/
inductive BookResult where
  | ok (appointment : Appointment)
  | error (message : String)
deriving Repr, DecidableEq

/-- Lines 54-95 of bookAppointment: look the patient up by email; create an
active patient when absent; flip an inactive patient to active (setting
lastStatusChangeDate and, when unset, the hospital) and save.  Returns the
patient, the store after the lookup/creation/save, and the
patientStatusChanged flag. -/
def findOrCreatePatient (st : Store) (now : Int) (hospitalId : Nat)
    (pd : PatientDetails) (pname pemail : String) : Patient × Store × Bool :=
  match st.findPatientByEmail pemail with
  | none =>
      let p : Patient :=
        { id := st.nextPatientId
          name := pname
          email := pemail
          phone := pd.phone.getD ""
          gender := pd.gender.getD "not_specified"
          bloodGroup := pd.bloodGroup.getD "Not Specified"
          hospital := some hospitalId
          status := "active"
          lastStatusChangeDate := some now }
      (p, { st with patients := st.patients ++ [p],
                    nextPatientId := st.nextPatientId + 1 }, false)
  | some p =>
      if p.status == "inactive" then
        let p1 := { p with
          status := "active"
          lastStatusChangeDate := some now
          hospital := if p.hospital.isNone then some hospitalId else p.hospital }
        (p1, st.savePatient p1, true)
      else (p, st, false)

/-- bookAppointment (appointmentController.js lines 14-209).  The source
order is preserved: required-field validation, doctor availability check,
patient find-or-create/activation (and save), THEN the slot-availability
check, then appointment creation, patient-array push, and activity logs.
The email send has no effect on the store and is not modelled. -/
def bookAppointment (st : Store) (now : Int) (req : BookRequest) :
    BookResult × Store :=
  match req.doctorId, req.hospitalId, req.date, req.time, req.patientDetails with
  | some doctorId, some hospitalId, some date, some time, some pd =>
    match pd.name, pd.email with
    | some pname, some pemail =>
      if pname == "" || pemail == "" then
        (.error "Patient name and email are required", st)
      else
        match st.findDoctorById doctorId with
        | none => (.error "Doctor not found", st)
        | some doctor =>
          match doctor.userId.bind st.findUserById with
          | none => (.error "Selected doctor is not available for appointments", st)
          | some duser =>
            if duser.status != "active" then
              (.error "Selected doctor is not available for appointments", st)
            else
              let fc := findOrCreatePatient st now hospitalId pd pname pemail
              let patient := fc.1
              let st1 := fc.2.1
              let changed := fc.2.2
              if st1.appointments.any (fun a =>
                  a.doctorId == doctorId && a.date == date && a.time == time
                    && a.status != "cancelled") then
                (.error "This time slot is already booked", st1)
              else
                let appt : Appointment :=
                  { id := st1.nextApptId
                    patientId := some patient.id
                    doctorId := doctorId
                    hospitalId := hospitalId
                    date := date
                    time := time
                    type := req.type.getD "consultation"
                    notes := req.notes.getD ""
                    status := "pending" }
                let st2 := { st1 with
                  appointments := st1.appointments ++ [appt]
                  nextApptId := st1.nextApptId + 1 }
                let patient1 := { patient with appointments :=
                  patient.appointments ++
                    [{ doctor := doctorId, date := date, status := "scheduled" }] }
                let st3 := st2.savePatient patient1
                let st4 := st3.pushActivity
                  { action := "appointment_booked"
                    subject := "appointment"
                    subjectId := appt.id
                    patientId := some patient.id
                    hospitalId := some hospitalId
                    description := "Appointment booked for patient"
                    metaPatientStatusChanged := some changed }
                let st5 :=
                  if changed then
                    st4.pushActivity
                      { action := "update_patient_status"
                        subject := "patient"
                        subjectId := patient.id
                        patientId := some patient.id
                        hospitalId := some hospitalId
                        description := "Patient status changed to active due to new appointment booking"
                        metaPreviousStatus := some "inactive"
                        metaNewStatus := some "active" }
                  else st4
                (.ok appt, st5)
    | _, _ => (.error "Patient name and email are required", st)
  | _, _, _, _, _ => (.error "Please provide all required fields", st)

/-- Body of POST /api/appointments for createAppointment (the staff-console
creation path, lines 614-739); the document fields of new Appointment(req.body). -/
structure CreateRequest where
  patientId : Option Nat := none
  doctorId : Nat
  hospitalId : Nat
  date : Int
  time : Int
  type : Option String := none
  status : Option String := none
  notes : Option String := none
deriving Repr, DecidableEq

/-- Result of createAppointment. -/
inductive CreateResult where
  | ok (appointment : Appointment) (patientStatusChanged : Bool)
  | error (message : String)
deriving Repr, DecidableEq

/-- createAppointment (appointmentController.js lines 614-739).  The save of
new Appointment(req.body) enforces the schema: patientId and type are
required and status must lie in the enum; a failing save reaches the catch
at line 730 with no store change.  There is NO slot-availability check on
this path.  The patientDetails fork of the source (lines 639-677) is
unreachable, because a body without patientId already fails the save, so it
is not modelled. -/
def createAppointment (st : Store) (now : Int) (req : CreateRequest) :
    CreateResult × Store :=
  match req.patientId, req.type with
  | some pid, some ty =>
    if !(validAppointmentStatus (req.status.getD "pending")) then
      (.error "Appointment validation failed", st)
    else
      let appt : Appointment :=
        { id := st.nextApptId
          patientId := some pid
          doctorId := req.doctorId
          hospitalId := req.hospitalId
          date := req.date
          time := req.time
          type := ty
          status := req.status.getD "pending"
          notes := req.notes.getD "" }
      let st1 := { st with
        appointments := st.appointments ++ [appt]
        nextApptId := st.nextApptId + 1 }
      let sync :=
        match st1.findPatientById pid with
        | some patient =>
            if patient.status == "inactive" then
              (st1.savePatient
                { patient with status := "active", lastStatusChangeDate := some now },
               true)
            else (st1, false)
        | none => (st1, false)
      let st3 := sync.1.pushActivity
        { action := "appointment_created"
          subject := "appointment"
          subjectId := appt.id
          patientId := some pid
          hospitalId := some req.hospitalId
          description := "Appointment created for patient" }
      (.ok appt sync.2, st3)
  | _, _ => (.error "Appointment validation failed", st)

/-- Shape of the JSON responses of updateAppointmentStatus and
updateTreatmentOutcome; warning is the warning key of the response body
(none when the response carries no warning key at all). -/
structure ApiResponse where
  httpStatus : Nat
  appointment : Option Appointment := none
  message : Option String := none
  warning : Option String := none
deriving Repr, DecidableEq

/-- The action label chosen at lines 546-550 of updateAppointmentStatus. -/
def statusActionLabel (status : String) : String :=
  if status == "confirmed" then "appointment_confirmed"
  else if status == "cancelled" then "appointment_cancelled"
  else if status == "completed" then "appointment_completed"
  else if status == "not_appeared" then "appointment_not_appeared"
  else "appointment_updated"

/-- Set the status of the first entry with the given doctor. -/
def updateFirstEntry (l : List ApptEntry) (d : Nat) (s : String) : List ApptEntry :=
  match l with
  | [] => []
  | e :: rest =>
      if e.doctor == d then { e with status := s } :: rest
      else e :: updateFirstEntry rest d s

/-- Lines 486-503 of updateAppointmentStatus: update the first entry of the
patient's embedded appointments array whose doctor matches, or push a new
entry; a confirmed appointment is stored as scheduled in that array. -/
def syncPatientApptsArray (patient : Patient) (upd : Appointment)
    (status : String) : Patient :=
  let entryStatus := if status == "confirmed" then "scheduled" else status
  if patient.appointments.any (fun e => e.doctor == upd.doctorId) then
    { patient with appointments :=
        updateFirstEntry patient.appointments upd.doctorId entryStatus }
  else
    { patient with appointments := patient.appointments ++
        [{ doctor := upd.doctorId, date := upd.date, status := entryStatus }] }

/-- updateAppointmentStatus (appointmentController.js lines 419-590).
patientSaveOk injects the outcome of the patient.save call at line 506: when
false the save throws and the catch at line 531 swallows the error, so the
patient store is unchanged, no warning reaches the response, and the
operation still answers 200 with the updated appointment. -/
def updateAppointmentStatus (st : Store) (now : Int) (user : User)
    (apptId : Nat) (status : String) (noShowReason : Option String)
    (patientSaveOk : Bool) : ApiResponse × Store :=
  match st.findAppointmentById apptId with
  | none => ({ httpStatus := 404, message := some "Appointment not found" }, st)
  | some appointment =>
    if !(validAppointmentStatus status) then
      -- runValidators rejects a status outside the enum; the catch at line
      -- 586 answers 500 and the store is unchanged
      ({ httpStatus := 500, message := some "Error updating appointment status" }, st)
    else
      let upd : Appointment :=
        { appointment with
          status := status
          noShowReason :=
            if status == "not_appeared" && (noShowReason.getD "") != "" then
              noShowReason.getD ""
            else appointment.noShowReason
          checkInTime :=
            if status == "completed" && appointment.checkInTime.isNone then
              some (appointment.consultationStartTime.getD now)
            else appointment.checkInTime
          consultationStartTime :=
            if status == "completed" && appointment.consultationStartTime.isNone then
              some now
            else appointment.consultationStartTime }
      let st1 := st.saveAppointment upd
      let sync :=
        match upd.patientId with
        | none => (st1, false)
        | some pid =>
          match st1.findPatientById pid with
          | none => (st1, false)
          | some patient =>
            let changed := status == "confirmed" && patient.status == "inactive"
            let patient1 :=
              if changed then
                { patient with status := "active", lastStatusChangeDate := some now }
              else patient
            let patient2 := syncPatientApptsArray patient1 upd status
            if patientSaveOk then
              let stA := st1.savePatient patient2
              let stB :=
                if changed then
                  stA.pushActivity
                    { action := "update_patient_status"
                      subject := "patient"
                      subjectId := patient.id
                      description := "Patient status changed to active due to confirmed appointment"
                      metaPreviousStatus := some "inactive"
                      metaNewStatus := some "active" }
                else stA
              (stB, changed)
            else
              -- the save threw; the flag set at line 482 still reaches the
              -- metadata of the main activity below
              (st1, changed)
      let st3 := sync.1.pushActivity
        { action := statusActionLabel status
          subject := "appointment"
          subjectId := upd.id
          patientId := upd.patientId
          hospitalId := some upd.hospitalId
          description := "Appointment " ++ status ++ " by " ++ user.role
          -- line 556 reads previousStatus from updatedAppointment, the
          -- document findByIdAndUpdate returned with new set to true
          metaPreviousStatus := some upd.status
          metaNewStatus := some status
          metaPatientStatusChanged := some sync.2 }
      ({ httpStatus := 200, appointment := some upd }, st3)

/-- Body of PUT /api/appointments/:id/treatment-outcome; none stands for an
omitted or empty (falsy) field. -/
structure OutcomePayload where
  diagnosis : Option String := none
  disease : Option String := none
  treatmentOutcome : Option String := none
  treatmentEndDate : Option Int := none
deriving Repr, DecidableEq

/-- The permission check of updateTreatmentOutcome (lines 1006-1024):
a doctor may only update an appointment whose doctorId matches the doctor
profile of the calling account; otherwise only staff and admin pass. -/
def outcomeAuthError (st : Store) (user : User) (appointment : Appointment) :
    Option ApiResponse :=
  if user.role == "doctor" then
    match st.doctors.find? (fun d => d.userId == some user.id) with
    | none => some { httpStatus := 404, message := some "Doctor not found" }
    | some doctor =>
      if appointment.doctorId != doctor.id then
        some { httpStatus := 403,
               message := some "You are not authorized to update this appointment" }
      else none
  else if user.role != "staff" && user.role != "admin" then
    some { httpStatus := 403,
           message := some "Only doctors, staff, or admins can update treatment outcomes" }
  else none

/-- The update_treatment activity appended at lines 1235-1247; its metadata
carries the outcome but no previous/new status keys. -/
def finalTreatmentActivity (appt : Appointment) (payload : OutcomePayload) :
    Activity :=
  { action := "update_treatment"
    subject := "appointment"
    subjectId := appt.id
    patientId := appt.patientId
    description := "Updated treatment outcome"
    metaTreatmentOutcome := payload.treatmentOutcome }

/-- updateTreatmentOutcome (appointmentController.js lines 981-1268).
patientSaveOk injects the outcome of the patient.save calls at lines 1092
and 1176 (when one is reached); a failing save lands in the catch branch
that answers 200 with a warning and skips the final activity. -/
def updateTreatmentOutcome (st : Store) (now : Int) (user : User)
    (apptId : Nat) (payload : OutcomePayload) (patientSaveOk : Bool) :
    ApiResponse × Store :=
  match st.findAppointmentById apptId with
  | none => ({ httpStatus := 404, message := some "Appointment not found" }, st)
  | some appointment =>
    match outcomeAuthError st user appointment with
    | some err => (err, st)
    | none =>
      if payload.treatmentOutcome.any (fun oc => !(validOutcome oc)) then
        ({ httpStatus := 400,
           message := some "Invalid treatment outcome. Must be one of: successful, partial, unsuccessful, ongoing" },
         st)
      else
        -- lines 1035-1048: diagnosis/disease fall back on the stored value,
        -- treatmentOutcome is assigned unconditionally (omitted means the
        -- field is unset), a supplied non-ongoing outcome forces completed
        let appt1 : Appointment :=
          { appointment with
            diagnosis := jsOrStr payload.diagnosis appointment.diagnosis
            disease := jsOrStr payload.disease appointment.disease
            treatmentOutcome := payload.treatmentOutcome
            treatmentEndDate :=
              if payload.treatmentEndDate.isSome then payload.treatmentEndDate
              else appointment.treatmentEndDate
            status :=
              if payload.treatmentOutcome.any (fun oc => oc != "ongoing") then
                "completed"
              else appointment.status }
        let st1 := st.saveAppointment appt1
        let success : ApiResponse :=
          { httpStatus := 200
            appointment := some appt1
            message := some "Treatment outcome updated successfully" }
        if payload.treatmentOutcome == some "successful"
            || payload.treatmentOutcome == some "unsuccessful" then
          match appt1.patientId with
          | none =>
              ({ httpStatus := 400,
                 message := some "Cannot update patient status: No patient ID associated with this appointment" },
               st1)
          | some pid =>
            match st1.findPatientById pid with
            | none =>
                ({ httpStatus := 200
                   appointment := some appt1
                   message := some "Treatment outcome updated successfully but patient record not found to update status"
                   warning := some "Patient record not found - status not updated" },
                 st1)
            | some patient =>
              -- lines 1077-1089: accrue floor((now - lastStatusChangeDate)
              -- in days) onto treatmentDays while active, then deactivate
              let patient1 :=
                if patient.status == "active" && patient.lastStatusChangeDate.isSome then
                  { patient with treatmentDays :=
                      patient.treatmentDays + Int.fdiv (now - patient.lastStatusChangeDate.getD 0) msPerDay }
                else patient
              let patient2 :=
                { patient1 with status := "inactive", lastStatusChangeDate := some now }
              if patientSaveOk then
                let st2 := (st1.savePatient patient2).pushActivity
                  { action := "update_patient_status"
                    subject := "patient"
                    subjectId := patient.id
                    description := "Patient status changed to inactive after " ++
                      payload.treatmentOutcome.getD "" ++ " treatment"
                    metaPreviousStatus := some "active"
                    metaNewStatus := some "inactive"
                    metaTreatmentOutcome := payload.treatmentOutcome }
                (success, st2.pushActivity (finalTreatmentActivity appt1 payload))
              else
                ({ httpStatus := 200
                   appointment := some appt1
                   message := some "Treatment outcome updated but patient status update failed"
                   warning := some "Patient status update failed" },
                 st1)
        else if payload.treatmentOutcome == some "ongoing" then
          match appt1.patientId with
          | none =>
              ({ httpStatus := 400,
                 message := some "Cannot update patient status: No patient ID associated with this appointment" },
               st1)
          | some pid =>
            match st1.findPatientById pid with
            | none =>
                ({ httpStatus := 200
                   appointment := some appt1
                   message := some "Treatment outcome updated successfully but patient record not found to update status"
                   warning := some "Patient record not found - status not updated" },
                 st1)
            | some patient =>
              if patient.status != "active" then
                let patient1 :=
                  { patient with status := "active", lastStatusChangeDate := some now }
                if patientSaveOk then
                  let st2 := (st1.savePatient patient1).pushActivity
                    { action := "update_patient_status"
                      subject := "patient"
                      subjectId := patient.id
                      description := "Patient status changed to active for ongoing treatment"
                      metaPreviousStatus := some "inactive"
                      metaNewStatus := some "active"
                      metaTreatmentOutcome := payload.treatmentOutcome }
                  (success, st2.pushActivity (finalTreatmentActivity appt1 payload))
                else
                  ({ httpStatus := 200
                     appointment := some appt1
                     message := some "Treatment outcome updated but patient status update failed"
                     warning := some "Patient status update failed" },
                   st1)
              else
                (success, st1.pushActivity (finalTreatmentActivity appt1 payload))
        else
          (success, st1.pushActivity (finalTreatmentActivity appt1 payload))

/-- format(now, yyyy-MM-dd): the calendar day of the sweep run. -/
def today (now : Int) : Int := Int.fdiv now msPerDay

/-- parseISO of the date and time of an appointment. -/
def scheduledAt (a : Appointment) : Int := a.date * msPerDay + a.time * msPerMinute

/-- The Appointment.find filter of the sweep (part_003 lines 52-58):
confirmed appointments dated today or earlier. -/
def sweepSelected (now : Int) (a : Appointment) : Bool :=
  a.status == "confirmed" && decide (a.date ≤ today now)

/-- The 30-minute threshold test of the sweep (part_003 lines 64-68). -/
def pastThreshold (now : Int) (a : Appointment) : Bool :=
  decide (scheduledAt a + 30 * msPerMinute < now)

/-- An appointment the sweep transitions: selected and past the threshold. -/
def sweepHits (now : Int) (a : Appointment) : Bool :=
  sweepSelected now a && pastThreshold now a

/-- The per-appointment mutation of the sweep loop. -/
def sweepOne (now : Int) (a : Appointment) : Appointment :=
  if sweepHits now a then { a with status := "not_appeared" } else a

/-- The Activity.create payload of the sweep (part_003 lines 74-90). -/
def sweepActivity (a : Appointment) : Activity :=
  { action := "appointment_updated"
    subject := "appointment"
    subjectId := a.id
    patientId := a.patientId
    hospitalId := some a.hospitalId
    description := "Patient did not appear for appointment"
    severity := some "warning"
    metaPreviousStatus := some "confirmed"
    metaNewStatus := some "not_appeared" }

/-- The audit entry the sweep appends for an appointment, when it hits. -/
def sweepActivityOf (now : Int) (a : Appointment) : Option Activity :=
  if sweepHits now a then some (sweepActivity a) else none

/-- updateMissedAppointments (src/unnamed/part_003 lines 39-100): every
confirmed appointment dated today or earlier whose scheduled time lies more
than 30 minutes in the past is saved as not_appeared, and one audit entry is
created per transitioned appointment. -/
def updateMissedAppointments (st : Store) (now : Int) : Store :=
  { st with
    appointments := st.appointments.map (sweepOne now)
    activities := st.activities ++ st.appointments.filterMap (sweepActivityOf now) }

/-! ## Helper lemmas -/

/-- Replacing every element whose key matches that of x, then looking that
key up, returns x, provided some element matched before the replacement. -/
theorem find?_map_replace {α : Type} (key : α → Nat) (x : α) (l : List α)
    (h : (l.find? (fun y => key y == key x)).isSome) :
    (l.map (fun y => if key y == key x then x else y)).find?
      (fun y => key y == key x) = some x := by
  induction l with
  | nil => simp [List.find?] at h
  | cons a t ih =>
    simp only [List.map_cons]
    cases hbk : (key a == key x) with
    | true =>
        simp only [eq_self_iff_true, if_true, List.find?_cons, beq_self_eq_true]
    | false =>
        rw [List.find?_cons] at h
        simp only [hbk] at h
        simp only [Bool.false_eq_true, if_false, List.find?_cons, hbk]
        exact ih h

/-- Elapsed whole days between t and t plus n days, as computed by the
floor-division of updateTreatmentOutcome, is exactly n. -/
theorem fdiv_whole_days (t : Int) (n : Nat) :
    Int.fdiv (t + n * msPerDay - t) msPerDay = n := by
  have h : t + n * msPerDay - t = (n : Int) * msPerDay := by ring
  rw [h]
  exact Int.mul_fdiv_cancel _ (by norm_num [msPerDay])

@[simp] theorem findPatientById_saveAppointment (st : Store) (a : Appointment)
    (i : Nat) : (st.saveAppointment a).findPatientById i = st.findPatientById i := rfl

@[simp] theorem findPatientById_pushActivity (st : Store) (act : Activity)
    (i : Nat) : (st.pushActivity act).findPatientById i = st.findPatientById i := rfl

@[simp] theorem findAppointmentById_savePatient (st : Store) (p : Patient)
    (i : Nat) : (st.savePatient p).findAppointmentById i = st.findAppointmentById i := rfl

@[simp] theorem findAppointmentById_pushActivity (st : Store) (act : Activity)
    (i : Nat) : (st.pushActivity act).findAppointmentById i = st.findAppointmentById i := rfl

@[simp] theorem patients_saveAppointment (st : Store) (a : Appointment) :
    (st.saveAppointment a).patients = st.patients := rfl

@[simp] theorem patients_pushActivity (st : Store) (act : Activity) :
    (st.pushActivity act).patients = st.patients := rfl

@[simp] theorem activities_saveAppointment (st : Store) (a : Appointment) :
    (st.saveAppointment a).activities = st.activities := rfl

@[simp] theorem activities_savePatient (st : Store) (p : Patient) :
    (st.savePatient p).activities = st.activities := rfl

@[simp] theorem activities_pushActivity (st : Store) (act : Activity) :
    (st.pushActivity act).activities = st.activities ++ [act] := rfl

@[simp] theorem appointments_savePatient (st : Store) (p : Patient) :
    (st.savePatient p).appointments = st.appointments := rfl

@[simp] theorem appointments_pushActivity (st : Store) (act : Activity) :
    (st.pushActivity act).appointments = st.appointments := rfl

@[simp] theorem nextApptId_savePatient (st : Store) (p : Patient) :
    (st.savePatient p).nextApptId = st.nextApptId := rfl

@[simp] theorem nextApptId_saveAppointment (st : Store) (a : Appointment) :
    (st.saveAppointment a).nextApptId = st.nextApptId := rfl

@[simp] theorem nextApptId_pushActivity (st : Store) (act : Activity) :
    (st.pushActivity act).nextApptId = st.nextApptId := rfl

@[simp] theorem nextPatientId_savePatient (st : Store) (p : Patient) :
    (st.savePatient p).nextPatientId = st.nextPatientId := rfl

@[simp] theorem nextPatientId_saveAppointment (st : Store) (a : Appointment) :
    (st.saveAppointment a).nextPatientId = st.nextPatientId := rfl

@[simp] theorem nextPatientId_pushActivity (st : Store) (act : Activity) :
    (st.pushActivity act).nextPatientId = st.nextPatientId := rfl

/-- Saving a patient that the store can look up makes the subsequent lookup
of its id return exactly the saved document. -/
theorem findPatientById_savePatient (st : Store) (p : Patient)
    (h : (st.findPatientById p.id).isSome) :
    (st.savePatient p).findPatientById p.id = some p :=
  find?_map_replace Patient.id p st.patients h

/-- Saving an appointment that the store can look up makes the subsequent
lookup of its id return exactly the saved document. -/
theorem findAppointmentById_saveAppointment (st : Store) (a : Appointment)
    (h : (st.findAppointmentById a.id).isSome) :
    (st.saveAppointment a).findAppointmentById a.id = some a :=
  find?_map_replace Appointment.id a st.appointments h

/-! ## Concrete fixtures -/

/-- A doctor account. -/
def drUser : User := { id := 100, name := "Dr", role := "doctor" }

/-- An admin account (passes the treatment-outcome permission check). -/
def adminUser : User := { id := 200, name := "Admin", role := "admin" }

/-- The doctor profile of drUser. -/
def doc1 : Doctor := { id := 1, userId := some 100 }

/-- A pending appointment of doctor 1 for patient 3 at day 19900, slot 540. -/
def apptPending : Appointment :=
  { id := 1, patientId := some 3, doctorId := 1, hospitalId := 2,
    date := 19900, time := 540, type := "consultation", status := "pending" }

/-- An active patient, active since time 1000, with 7 accrued treatment days. -/
def patActive : Patient :=
  { id := 3, name := "Pat", email := "a@x.com", status := "active",
    lastStatusChangeDate := some 1000, treatmentDays := 7 }

/-- The same patient while inactive. -/
def patInactive : Patient :=
  { id := 3, name := "Pat", email := "a@x.com", status := "inactive",
    lastStatusChangeDate := some 0, treatmentDays := 7 }

/-- The same slot as apptPending, but cancelled. -/
def apptCancelled : Appointment :=
  { id := 1, patientId := some 3, doctorId := 1, hospitalId := 2,
    date := 19900, time := 540, type := "consultation", status := "cancelled" }

/-- A second, inactive patient. -/
def patInactive4 : Patient :=
  { id := 4, name := "Qat", email := "b@x.com", status := "inactive",
    lastStatusChangeDate := some 0, treatmentDays := 2 }

/-- A pending appointment of doctor 1 for patient 4 at slot 660. -/
def apptC : Appointment :=
  { id := 2, patientId := some 4, doctorId := 1, hospitalId := 2,
    date := 19900, time := 660, type := "consultation", status := "pending" }

/-- A store with the fixed doctor and accounts and the given collections. -/
def baseStore (appts : List Appointment) (pats : List Patient) : Store :=
  { appointments := appts, patients := pats, doctors := [doc1],
    users := [drUser, adminUser], activities := [],
    nextApptId := 10, nextPatientId := 5 }

/-! ## Claim theorems -/

/-- C2: for a patient active since time t with treatmentDays D, recording a
successful (or unsuccessful) treatment outcome exactly n whole days later
leaves the patient with treatmentDays D plus n (the floor of the elapsed
days is added, not overwritten), status inactive, and lastStatusChangeDate
set to the current time. -/
theorem C2_deactivation_accrual
    (st : Store) (user : User) (apptId : Nat) (a : Appointment) (p : Patient)
    (t D : Int) (n : Nat) (oc : String) (dg ds : Option String) (te : Option Int)
    (hoc : oc = "successful" ∨ oc = "unsuccessful")
    (ha : st.findAppointmentById apptId = some a)
    (hauth : outcomeAuthError st user a = none)
    (hpid : a.patientId = some p.id)
    (hp : st.findPatientById p.id = some p)
    (hstat : p.status = "active")
    (hlast : p.lastStatusChangeDate = some t)
    (hD : p.treatmentDays = D) :
    ∃ p2 : Patient,
      (updateTreatmentOutcome st (t + n * msPerDay) user apptId
          { diagnosis := dg, disease := ds, treatmentOutcome := some oc,
            treatmentEndDate := te } true).2.findPatientById p.id = some p2
      ∧ p2.treatmentDays = D + n
      ∧ p2.status = "inactive"
      ∧ p2.lastStatusChangeDate = some (t + n * msPerDay) := by
  rcases hoc with rfl | rfl <;>
  · refine ⟨{ p with
        status := "inactive"
        lastStatusChangeDate := some (t + n * msPerDay)
        treatmentDays := D + n }, ?_, by simp, by simp, by simp⟩
    simp only [updateTreatmentOutcome, ha, hauth, validOutcome, jsOrStr,
      Option.any_some, hpid, findPatientById_saveAppointment, hp, hstat, hlast,
      hD, fdiv_whole_days, Option.getD_some, Option.isSome_some,
      findPatientById_pushActivity]
    simp
    exact findPatientById_savePatient _ _ (by simp [hp])

/-- Witness for C2: recording a successful outcome for patient 3, active
since time 1000 with 7 treatment days, exactly 3 days later, leaves the
patient with 10 treatment days, inactive, stamped with the current time. -/
theorem C2_deactivation_accrual_witness :
    ∃ p2 : Patient,
      (updateTreatmentOutcome (baseStore [apptPending] [patActive])
          (1000 + 3 * msPerDay) adminUser 1
          { treatmentOutcome := some "successful" } true).2.findPatientById 3 = some p2
      ∧ p2.treatmentDays = 10
      ∧ p2.status = "inactive"
      ∧ p2.lastStatusChangeDate = some 259201000 := by
  obtain ⟨p2, h1, h2, h3, h4⟩ :=
    C2_deactivation_accrual (baseStore [apptPending] [patActive]) adminUser 1
      apptPending patActive 1000 7 3 "successful" none none none
      (Or.inl rfl) rfl rfl rfl rfl rfl rfl rfl
  refine ⟨p2, h1, ?_, h3, ?_⟩
  · rw [h2]; norm_num
  · rw [h4]; norm_num [msPerDay]

/-- C3: a call to updateTreatmentOutcome supplying an outcome among
successful, partial, unsuccessful stores the appointment with status
completed, whatever its prior status was. -/
theorem C3_outcome_forces_completion
    (st : Store) (now : Int) (user : User) (a : Appointment)
    (oc : String) (dg ds : Option String) (te : Option Int) (b : Bool)
    (ha : st.findAppointmentById a.id = some a)
    (hauth : outcomeAuthError st user a = none)
    (hoc : oc = "successful" ∨ oc = "partial" ∨ oc = "unsuccessful") :
    (∃ a2 : Appointment,
      (updateTreatmentOutcome st now user a.id
          { diagnosis := dg, disease := ds, treatmentOutcome := some oc,
            treatmentEndDate := te } b).2.findAppointmentById a.id = some a2
      ∧ a2.status = "completed")
    ∧ (∃ a3 : Appointment,
      (updateTreatmentOutcome st now user a.id
          { diagnosis := dg, disease := ds, treatmentOutcome := some "ongoing",
            treatmentEndDate := te } b).2.findAppointmentById a.id = some a3
      ∧ a3.status = a.status) := by
  have hS : (st.findAppointmentById a.id).isSome := by simp [ha]
  constructor
  · refine ⟨{ a with
        diagnosis := jsOrStr dg a.diagnosis
        disease := jsOrStr ds a.disease
        treatmentOutcome := some oc
        treatmentEndDate := if te.isSome then te else a.treatmentEndDate
        status := "completed" }, ?_, rfl⟩
    rcases hoc with rfl | rfl | rfl <;>
    · simp only [updateTreatmentOutcome, ha, hauth]
      simp [validOutcome]
      repeat' split
      all_goals (try dsimp only)
      all_goals (try simp only [findAppointmentById_savePatient, findAppointmentById_pushActivity])
      all_goals exact findAppointmentById_saveAppointment _ _ hS
  · refine ⟨{ a with
        diagnosis := jsOrStr dg a.diagnosis
        disease := jsOrStr ds a.disease
        treatmentOutcome := some "ongoing"
        treatmentEndDate := if te.isSome then te else a.treatmentEndDate }, ?_, rfl⟩
    simp only [updateTreatmentOutcome, ha, hauth]
    simp [validOutcome]
    repeat' split
    all_goals (try dsimp only)
    all_goals (try simp only [findAppointmentById_savePatient, findAppointmentById_pushActivity])
    all_goals exact findAppointmentById_saveAppointment _ _ hS

/-- Witness for C3: at the concrete store, a partial outcome completes the
pending appointment while an ongoing outcome leaves it pending. -/
theorem C3_outcome_forces_completion_witness :
    (∃ a2 : Appointment,
      (updateTreatmentOutcome (baseStore [apptPending] [patActive]) 5000 adminUser 1
          { treatmentOutcome := some "partial" } true).2.findAppointmentById 1 = some a2
      ∧ a2.status = "completed")
    ∧ (∃ a3 : Appointment,
      (updateTreatmentOutcome (baseStore [apptPending] [patActive]) 5000 adminUser 1
          { treatmentOutcome := some "ongoing" } true).2.findAppointmentById 1 = some a3
      ∧ a3.status = "pending") :=
  C3_outcome_forces_completion (baseStore [apptPending] [patActive]) 5000 adminUser
    apptPending "partial" none none none true rfl rfl (Or.inr (Or.inl rfl))

/-- C8: a call to updateTreatmentOutcome that supplies the partial outcome
never touches the patient store: every patient document, in particular its
status, lastStatusChangeDate and treatmentDays fields, is left unchanged. -/
theorem C8_partial_outcome_patient_frame
    (st : Store) (now : Int) (user : User) (apptId : Nat)
    (dg ds : Option String) (te : Option Int) (b : Bool) :
    (updateTreatmentOutcome st now user apptId
        { diagnosis := dg, disease := ds, treatmentOutcome := some "partial",
          treatmentEndDate := te } b).2.patients = st.patients := by
  simp only [updateTreatmentOutcome]
  repeat' split
  all_goals (try dsimp only)
  all_goals simp_all [validOutcome]

/-- C10: when the payload omits treatmentOutcome, diagnosis and disease, the
stored appointment keeps its diagnosis, disease and status (no completion
forcing), but its treatmentOutcome field is overwritten with the absent
value; the patient store is untouched (no patient-status synchronization). -/
theorem C10_omitted_outcome_overwrites
    (st : Store) (now : Int) (user : User) (a : Appointment)
    (te : Option Int) (b : Bool)
    (ha : st.findAppointmentById a.id = some a)
    (hauth : outcomeAuthError st user a = none) :
    ∃ a2 : Appointment,
      (updateTreatmentOutcome st now user a.id
          { diagnosis := none, disease := none, treatmentOutcome := none,
            treatmentEndDate := te } b).2.findAppointmentById a.id = some a2
      ∧ a2.treatmentOutcome = none
      ∧ a2.diagnosis = a.diagnosis
      ∧ a2.disease = a.disease
      ∧ a2.status = a.status
      ∧ (updateTreatmentOutcome st now user a.id
          { diagnosis := none, disease := none, treatmentOutcome := none,
            treatmentEndDate := te } b).2.patients = st.patients := by
  have hS : (st.findAppointmentById a.id).isSome := by simp [ha]
  refine ⟨{ a with
      treatmentOutcome := none
      treatmentEndDate := if te.isSome then te else a.treatmentEndDate },
    ?_, rfl, rfl, rfl, rfl, ?_⟩
  · simp only [updateTreatmentOutcome, ha, hauth]
    simp [jsOrStr]
    exact findAppointmentById_saveAppointment _ _ hS
  · simp only [updateTreatmentOutcome, ha, hauth]
    simp [jsOrStr]

/-- A swept appointment is a fixed point of the sweep mutation. -/
theorem sweepOne_idem (now : Int) (a : Appointment) :
    sweepOne now (sweepOne now a) = sweepOne now a := by
  unfold sweepOne
  cases hh : sweepHits now a with
  | true => simp [sweepHits, sweepSelected]
  | false => simp [hh]

/-- A swept appointment never produces a second audit entry. -/
theorem sweepActivityOf_sweepOne (now : Int) (a : Appointment) :
    sweepActivityOf now (sweepOne now a) = none := by
  unfold sweepOne sweepActivityOf
  cases hh : sweepHits now a with
  | true => simp [sweepHits, sweepSelected]
  | false => simp [hh]

/-- The audit entries of one sweep run: one sweepActivity per hit, in
appointment order. -/
theorem filterMap_sweepActivityOf (now : Int) (l : List Appointment) :
    l.filterMap (sweepActivityOf now)
      = (l.filter (sweepHits now)).map sweepActivity := by
  induction l with
  | nil => rfl
  | cons a t ih =>
    cases hh : sweepHits now a <;>
      simp [List.filterMap_cons, List.filter_cons, hh, sweepActivityOf, ih]

/-- C6: the no-show sweep is idempotent: one run transitions every hit
appointment once and appends exactly one audit entry per hit appointment;
a second run over the resulting data changes nothing and appends nothing. -/
theorem C6_sweep_idempotent (st : Store) (now : Int) :
    updateMissedAppointments (updateMissedAppointments st now) now
      = updateMissedAppointments st now
    ∧ (updateMissedAppointments st now).appointments
      = st.appointments.map (sweepOne now)
    ∧ (updateMissedAppointments st now).activities
      = st.activities ++ (st.appointments.filter (sweepHits now)).map sweepActivity := by
  refine ⟨?_, rfl, ?_⟩
  · unfold updateMissedAppointments
    simp only [List.map_map]
    have h1 : st.appointments.map (sweepOne now ∘ sweepOne now)
        = st.appointments.map (sweepOne now) :=
      List.map_congr_left (fun a _ => sweepOne_idem now a)
    have h2 : (st.appointments.map (sweepOne now)).filterMap (sweepActivityOf now)
        = [] := by
      rw [List.filterMap_map]
      have : ∀ a ∈ st.appointments, (sweepActivityOf now ∘ sweepOne now) a = none :=
        fun a _ => sweepActivityOf_sweepOne now a
      exact List.filterMap_eq_nil_iff.mpr this
    simp [h1, h2]
  · unfold updateMissedAppointments
    simp [filterMap_sweepActivityOf]

@[simp] theorem syncPatientApptsArray_id (p : Patient) (u : Appointment)
    (s : String) : (syncPatientApptsArray p u s).id = p.id := by
  unfold syncPatientApptsArray; repeat' split
  all_goals rfl

@[simp] theorem syncPatientApptsArray_status (p : Patient) (u : Appointment)
    (s : String) : (syncPatientApptsArray p u s).status = p.status := by
  unfold syncPatientApptsArray; repeat' split
  all_goals rfl

@[simp] theorem syncPatientApptsArray_lastStatusChangeDate (p : Patient)
    (u : Appointment) (s : String) :
    (syncPatientApptsArray p u s).lastStatusChangeDate = p.lastStatusChangeDate := by
  unfold syncPatientApptsArray; repeat' split
  all_goals rfl

/-- Saving a patient under a given lookup id that the store can resolve
returns exactly the saved document on the next lookup. -/
theorem findPatientById_savePatient2 (st : Store) (p : Patient) (i : Nat)
    (hip : p.id = i) (h : (st.findPatientById i).isSome) :
    (st.savePatient p).findPatientById i = some p := by
  subst hip
  exact findPatientById_savePatient st p h

/-- C7: the activation rule is idempotent.  Booking for an already-active
patient, and confirming an appointment of an already-active patient, leave
the patient record's status and lastStatusChangeDate untouched; confirming
an appointment of an inactive patient flips it to active and resets
lastStatusChangeDate to now. -/
theorem C7_activation_idempotent
    (st : Store) (now : Int) (user : User)
    (dId hId : Nat) (d tm : Int) (ty nt : Option String)
    (nm em : String) (ph g bg : Option String)
    (doctor : Doctor) (duser : User) (p q : Patient) (aB aC : Appointment)
    (hnm : (nm == "") = false) (hem : (em == "") = false)
    (hdoc : st.findDoctorById dId = some doctor)
    (hdu : doctor.userId.bind st.findUserById = some duser)
    (hdus : duser.status = "active")
    (hpem : st.findPatientByEmail em = some p)
    (hpact : p.status = "active")
    (hslot : st.appointments.any (fun x => x.doctorId == dId && x.date == d
        && x.time == tm && x.status != "cancelled") = false)
    (haB : st.findAppointmentById aB.id = some aB)
    (haBp : aB.patientId = some p.id)
    (hpfind : st.findPatientById p.id = some p)
    (haC : st.findAppointmentById aC.id = some aC)
    (haCp : aC.patientId = some q.id)
    (hqfind : st.findPatientById q.id = some q)
    (hqin : q.status = "inactive") :
    (∃ p2 : Patient,
      (bookAppointment st now
        { doctorId := some dId, hospitalId := some hId, date := some d,
          time := some tm, type := ty, notes := nt,
          patientDetails := some (PatientDetails.mk (some nm) (some em) ph g bg) }).2.findPatientById p.id
        = some p2
      ∧ p2.status = p.status
      ∧ p2.lastStatusChangeDate = p.lastStatusChangeDate)
    ∧ (∃ p3 : Patient,
      (updateAppointmentStatus st now user aB.id "confirmed" none
          true).2.findPatientById p.id = some p3
      ∧ p3.status = p.status
      ∧ p3.lastStatusChangeDate = p.lastStatusChangeDate)
    ∧ (∃ q2 : Patient,
      (updateAppointmentStatus st now user aC.id "confirmed" none
          true).2.findPatientById q.id = some q2
      ∧ q2.status = "active"
      ∧ q2.lastStatusChangeDate = some now) := by
  have hS : (st.findPatientById p.id).isSome := by simp [hpfind]
  have hSq : (st.findPatientById q.id).isSome := by simp [hqfind]
  refine ⟨?_, ?_, ?_⟩
  · simp only [bookAppointment, findOrCreatePatient, hpem, hdoc, hdu, hdus,
      hpact, hnm, hem]
    simp [hslot]
    exact ⟨_, findPatientById_savePatient2 _ _ _ rfl hS, hpact, rfl⟩
  · simp only [updateAppointmentStatus, haB, haBp]
    simp [validAppointmentStatus, hpfind, hpact]
    exact ⟨_, findPatientById_savePatient2 _ _ _ (by simp) hS, by simp [hpact], by simp⟩
  · simp only [updateAppointmentStatus, haC, haCp]
    simp [validAppointmentStatus, hqfind, hqin]
    exact ⟨_, findPatientById_savePatient2 _ _ _ (by simp) hSq, by simp, by simp⟩

/-- Witness for C7 at a concrete store: booking for the active patient 3 and
confirming their appointment leave status and lastStatusChangeDate alone,
while confirming the appointment of the inactive patient 4 activates them
with lastStatusChangeDate 777. -/
theorem C7_activation_idempotent_witness :
    (∃ p2 : Patient,
      (bookAppointment (baseStore [apptPending, apptC] [patActive, patInactive4]) 777
        { doctorId := some 1, hospitalId := some 2, date := some 19900,
          time := some 600,
          patientDetails := some (PatientDetails.mk (some "Pat") (some "a@x.com")
            none none none) }).2.findPatientById 3 = some p2
      ∧ p2.status = "active"
      ∧ p2.lastStatusChangeDate = some 1000)
    ∧ (∃ p3 : Patient,
      (updateAppointmentStatus (baseStore [apptPending, apptC] [patActive, patInactive4])
          777 adminUser 1 "confirmed" none true).2.findPatientById 3 = some p3
      ∧ p3.status = "active"
      ∧ p3.lastStatusChangeDate = some 1000)
    ∧ (∃ q2 : Patient,
      (updateAppointmentStatus (baseStore [apptPending, apptC] [patActive, patInactive4])
          777 adminUser 2 "confirmed" none true).2.findPatientById 4 = some q2
      ∧ q2.status = "active"
      ∧ q2.lastStatusChangeDate = some 777) :=
  C7_activation_idempotent (baseStore [apptPending, apptC] [patActive, patInactive4])
    777 adminUser 1 2 19900 600 none none "Pat" "a@x.com" none none none
    doc1 drUser patActive patInactive4 apptPending apptC
    rfl rfl rfl rfl rfl rfl rfl rfl rfl rfl rfl rfl rfl rfl rfl

/-- Witness for C10 at the concrete store: the call with an omitted outcome
keeps diagnosis, disease and status but erases the stored ongoing value,
and never touches the patient store. -/
theorem C10_omitted_outcome_overwrites_witness :
    ∃ a2 : Appointment,
      (updateTreatmentOutcome (baseStore [apptPending] [patActive]) 5000 adminUser 1
          { treatmentOutcome := none } true).2.findAppointmentById 1 = some a2
      ∧ a2.treatmentOutcome = none
      ∧ a2.diagnosis = none
      ∧ a2.disease = none
      ∧ a2.status = "pending"
      ∧ (updateTreatmentOutcome (baseStore [apptPending] [patActive]) 5000 adminUser 1
          { treatmentOutcome := none } true).2.patients = [patActive] :=
  C10_omitted_outcome_overwrites (baseStore [apptPending] [patActive]) 5000 adminUser
    apptPending none true rfl rfl

/-- A booking request for the exact slot apptPending occupies, with the
contact details of the stored patient. -/
def bookReqBusy : BookRequest :=
  { doctorId := some 1, hospitalId := some 2, date := some 19900,
    time := some 540,
    patientDetails := some (PatientDetails.mk (some "Pat") (some "a@x.com")
      none none none) }

/-- C4 as stated is false on the code: a bookAppointment call rejected
because the slot is occupied has already flipped the inactive patient to
active (stamping lastStatusChangeDate and the hospital) before the slot
check ran, and that patient mutation persists after the rejection. -/
theorem C4_counterexample :
    (bookAppointment (baseStore [apptPending] [patInactive]) 1000 bookReqBusy).1
      = BookResult.error "This time slot is already booked"
    ∧ (baseStore [apptPending] [patInactive]).findPatientById 3 = some patInactive
    ∧ patInactive.status = "inactive"
    ∧ (bookAppointment (baseStore [apptPending] [patInactive]) 1000
        bookReqBusy).2.findPatientById 3
      = some (Patient.mk 3 "Pat" "a@x.com" "" "not_specified" "Not Specified"
          "active" (some 1000) 7 (some 2) []) := by
  decide

/-- C4 amended: a booking rejected for missing required fields performs no
store mutation at all; a booking rejected because the slot is occupied
creates no appointment, logs no activity and allocates no appointment id,
but the patient find-or-create/activation side effects that run before the
slot check persist. -/
theorem C4_rejection_effects_amended
    (st : Store) (now : Int)
    (od : Option Nat) (opd : Option PatientDetails) (oh : Option Nat)
    (odt otm : Option Int) (ty nt : Option String)
    (dId hId : Nat) (d tm : Int)
    (nm em : String) (ph g bg : Option String)
    (doctor : Doctor) (duser : User)
    (hnm : (nm == "") = false) (hem : (em == "") = false)
    (hdoc : st.findDoctorById dId = some doctor)
    (hdu : doctor.userId.bind st.findUserById = some duser)
    (hdus : duser.status = "active")
    (hslot : st.appointments.any (fun x => x.doctorId == dId && x.date == d
        && x.time == tm && x.status != "cancelled") = true) :
    (od = none ∨ oh = none ∨ odt = none ∨ otm = none ∨ opd = none →
      (bookAppointment st now ⟨od, opd, oh, odt, otm, ty, nt⟩).1
          = .error "Please provide all required fields"
      ∧ (bookAppointment st now ⟨od, opd, oh, odt, otm, ty, nt⟩).2 = st)
    ∧ (∀ pd : PatientDetails, pd.name = none ∨ pd.email = none →
      (bookAppointment st now ⟨some dId, some pd, some hId, some d, some tm, ty, nt⟩).1
          = .error "Patient name and email are required"
      ∧ (bookAppointment st now ⟨some dId, some pd, some hId, some d, some tm, ty, nt⟩).2 = st)
    ∧ ((bookAppointment st now ⟨some dId,
          some (PatientDetails.mk (some nm) (some em) ph g bg), some hId,
          some d, some tm, ty, nt⟩).1 = .error "This time slot is already booked"
      ∧ (bookAppointment st now ⟨some dId,
          some (PatientDetails.mk (some nm) (some em) ph g bg), some hId,
          some d, some tm, ty, nt⟩).2.appointments = st.appointments
      ∧ (bookAppointment st now ⟨some dId,
          some (PatientDetails.mk (some nm) (some em) ph g bg), some hId,
          some d, some tm, ty, nt⟩).2.activities = st.activities
      ∧ (bookAppointment st now ⟨some dId,
          some (PatientDetails.mk (some nm) (some em) ph g bg), some hId,
          some d, some tm, ty, nt⟩).2.nextApptId = st.nextApptId) := by
  refine ⟨?_, ?_, ?_⟩
  · intro h
    cases od <;> cases oh <;> cases odt <;> cases otm <;> cases opd <;>
      first
        | exact ⟨rfl, rfl⟩
        | (rcases h with h | h | h | h | h <;> simp at h)
  · rintro ⟨onm, oem, oph, og, obg⟩ h
    cases onm <;> cases oem <;>
      first
        | exact ⟨rfl, rfl⟩
        | (rcases h with h | h <;> simp at h)
  · simp only [bookAppointment, findOrCreatePatient, hdoc, hdu, hdus, hnm, hem]
    cases hfp : st.findPatientByEmail em with
    | none => simp [hslot]
    | some p =>
      cases hps : (p.status == "inactive") with
      | true => simp [hslot, hps]
      | false => simp [hslot, hps]

/-- The uniqueness invariant of the spec: among appointments with distinct
ids, no two non-cancelled ones share a doctor/date/time slot. -/
def noDoubleBooking (st : Store) : Prop :=
  ∀ x ∈ st.appointments, ∀ y ∈ st.appointments, x.id ≠ y.id →
    x.doctorId = y.doctorId → x.date = y.date → x.time = y.time →
    x.status = "cancelled" ∨ y.status = "cancelled"

/-- Appending an appointment into a slot that no stored non-cancelled
appointment occupies preserves the uniqueness invariant (list form). -/
theorem noDoubleBooking_snoc (l : List Appointment) (appt : Appointment)
    (hndb : ∀ x ∈ l, ∀ y ∈ l, x.id ≠ y.id → x.doctorId = y.doctorId →
        x.date = y.date → x.time = y.time →
        x.status = "cancelled" ∨ y.status = "cancelled")
    (hfree : l.any (fun x => x.doctorId == appt.doctorId && x.date == appt.date
        && x.time == appt.time && x.status != "cancelled") = false) :
    ∀ x ∈ l ++ [appt], ∀ y ∈ l ++ [appt], x.id ≠ y.id → x.doctorId = y.doctorId →
      x.date = y.date → x.time = y.time →
      x.status = "cancelled" ∨ y.status = "cancelled" := by
  have hall : ∀ x ∈ l, (x.doctorId == appt.doctorId && x.date == appt.date
      && x.time == appt.time && x.status != "cancelled") = false := by
    intro x hx
    have := List.any_eq_false.mp hfree x hx
    simpa using this
  intro x hx y hy hne hdoc hdate htime
  rcases List.mem_append.mp hx with hx1 | hx1
  · rcases List.mem_append.mp hy with hy1 | hy1
    · exact hndb x hx1 y hy1 hne hdoc hdate htime
    · have hy2 : y = appt := by simpa using hy1
      subst hy2
      have hpx := hall x hx1
      rw [hdoc, hdate, htime] at hpx
      simp at hpx
      exact Or.inl hpx
  · have hx2 : x = appt := by simpa using hx1
    rcases List.mem_append.mp hy with hy1 | hy1
    · have hpy := hall y hy1
      rw [hx2] at hdoc hdate htime
      rw [← hdoc, ← hdate, ← htime] at hpy
      simp at hpy
      exact Or.inr hpy
    · have hy2 : y = appt := by simpa using hy1
      exact absurd (by rw [hx2, hy2]) hne

/-- C1 is false on the code: createAppointment performs no slot-availability
check (and the schema declares no unique slot index), so creating an
appointment for an occupied non-cancelled slot succeeds and breaks the
uniqueness invariant. -/
instance (st : Store) : Decidable (noDoubleBooking st) := by
  unfold noDoubleBooking
  infer_instance

theorem C1_counterexample :
    noDoubleBooking (baseStore [apptPending] [patActive])
    ∧ (createAppointment (baseStore [apptPending] [patActive]) 1000
        { patientId := some 3, doctorId := 1, hospitalId := 2, date := 19900,
          time := 540, type := some "consultation" }).1
      = CreateResult.ok (Appointment.mk 10 (some 3) 1 2 19900 540 "consultation"
          "pending" "" "" none none (some "ongoing") none none none false false
          none none) false
    ∧ ¬ noDoubleBooking (createAppointment (baseStore [apptPending] [patActive]) 1000
        { patientId := some 3, doctorId := 1, hospitalId := 2, date := 19900,
          time := 540, type := some "consultation" }).2 := by
  decide

set_option maxHeartbeats 1000000 in
/-- C1 amended: only bookAppointment enforces the slot guard.  Booking an
occupied non-cancelled slot fails with the slot-taken validation error and
creates no appointment; booking a slot whose occupants are all cancelled
succeeds; and bookAppointment preserves the uniqueness invariant.  The
other appointment-creating operations (createAppointment and the
report-spawned follow-up creation) perform no such check. -/
theorem C1_no_double_booking_amended
    (st : Store) (now : Int)
    (dId hId : Nat) (d tm : Int) (ty nt : Option String)
    (nm em : String) (ph g bg : Option String)
    (doctor : Doctor) (duser : User)
    (hnm : (nm == "") = false) (hem : (em == "") = false)
    (hdoc : st.findDoctorById dId = some doctor)
    (hdu : doctor.userId.bind st.findUserById = some duser)
    (hdus : duser.status = "active") :
    (st.appointments.any (fun x => x.doctorId == dId && x.date == d
        && x.time == tm && x.status != "cancelled") = true →
      (bookAppointment st now ⟨some dId,
          some (PatientDetails.mk (some nm) (some em) ph g bg), some hId,
          some d, some tm, ty, nt⟩).1 = .error "This time slot is already booked"
      ∧ (bookAppointment st now ⟨some dId,
          some (PatientDetails.mk (some nm) (some em) ph g bg), some hId,
          some d, some tm, ty, nt⟩).2.appointments = st.appointments)
    ∧ (st.appointments.any (fun x => x.doctorId == dId && x.date == d
        && x.time == tm && x.status != "cancelled") = false →
      ∃ appt : Appointment,
        (bookAppointment st now ⟨some dId,
            some (PatientDetails.mk (some nm) (some em) ph g bg), some hId,
            some d, some tm, ty, nt⟩).1 = .ok appt
        ∧ appt.doctorId = dId ∧ appt.date = d ∧ appt.time = tm
        ∧ appt.status = "pending")
    ∧ (∀ req : BookRequest, noDoubleBooking st →
        noDoubleBooking (bookAppointment st now req).2) := by
  refine ⟨?_, ?_, ?_⟩
  · intro hslot
    simp only [bookAppointment, findOrCreatePatient, hdoc, hdu, hdus, hnm, hem]
    cases hfp : st.findPatientByEmail em with
    | none => simp [hslot]
    | some p =>
      cases hps : (p.status == "inactive") with
      | true => simp [hslot, hps]
      | false => simp [hslot, hps]
  · intro hslot
    simp only [bookAppointment, findOrCreatePatient, hdoc, hdu, hdus, hnm, hem]
    cases hfp : st.findPatientByEmail em with
    | none =>
      simp [hslot]
    | some p =>
      cases hps : (p.status == "inactive") with
      | true => simp [hslot, hps]
      | false => simp [hslot, hps]
  · rintro ⟨rod, ropd, roh, rodt, rotm, rty, rnt⟩ hndb
    simp only [bookAppointment, findOrCreatePatient]
    cases rod <;> cases roh <;> cases rodt <;> cases rotm <;> cases ropd <;>
      try exact hndb
    rename_i pd
    obtain ⟨pnm, pem, pph, pgg, pbg⟩ := pd
    cases pnm <;> cases pem <;> try exact hndb
    repeat' split
    all_goals (try exact hndb)
    all_goals refine noDoubleBooking_snoc _ _ hndb ?_
    all_goals simp_all

/-- Witness for the amended C1: at the occupied store the booking fails with
the slot-taken error and creates nothing; at the cancelled-slot store the
same booking succeeds; and the rejected call preserves the invariant. -/
theorem C1_no_double_booking_amended_witness :
    ((bookAppointment (baseStore [apptPending] [patActive]) 1000 bookReqBusy).1
        = .error "This time slot is already booked"
      ∧ (bookAppointment (baseStore [apptPending] [patActive]) 1000
          bookReqBusy).2.appointments = [apptPending])
    ∧ (∃ appt : Appointment,
        (bookAppointment (baseStore [apptCancelled] [patActive]) 1000 bookReqBusy).1
          = .ok appt
        ∧ appt.doctorId = 1 ∧ appt.date = 19900 ∧ appt.time = 540
        ∧ appt.status = "pending")
    ∧ noDoubleBooking
        (bookAppointment (baseStore [apptPending] [patActive]) 1000 bookReqBusy).2 := by
  have h1 := C1_no_double_booking_amended (baseStore [apptPending] [patActive]) 1000
    1 2 19900 540 none none "Pat" "a@x.com" none none none doc1 drUser
    rfl rfl rfl rfl rfl
  have h2 := C1_no_double_booking_amended (baseStore [apptCancelled] [patActive]) 1000
    1 2 19900 540 none none "Pat" "a@x.com" none none none doc1 drUser
    rfl rfl rfl rfl rfl
  exact ⟨h1.1 (by decide), h2.2.1 (by decide), h1.2.2 bookReqBusy (by decide)⟩

/-- Witness for the amended C4: a fully-missing request and a request with
missing contact details leave the store untouched, and the slot-occupied
rejection keeps the appointment list, while the booking error is reported. -/
theorem C4_rejection_effects_amended_witness :
    ((bookAppointment (baseStore [apptPending] [patInactive]) 1000
        ⟨none, none, none, none, none, none, none⟩).2
      = baseStore [apptPending] [patInactive])
    ∧ ((bookAppointment (baseStore [apptPending] [patInactive]) 1000
        ⟨some 1, some (PatientDetails.mk none none none none none), some 2,
          some 19900, some 540, none, none⟩).2
      = baseStore [apptPending] [patInactive])
    ∧ (bookAppointment (baseStore [apptPending] [patInactive]) 1000
        bookReqBusy).1 = .error "This time slot is already booked"
    ∧ (bookAppointment (baseStore [apptPending] [patInactive]) 1000
        bookReqBusy).2.appointments = [apptPending]
    ∧ (bookAppointment (baseStore [apptPending] [patInactive]) 1000
        bookReqBusy).2.activities = [] := by
  have h := C4_rejection_effects_amended (baseStore [apptPending] [patInactive]) 1000
    none none none none none none none 1 2 19900 540 "Pat" "a@x.com" none none none
    doc1 drUser rfl rfl rfl rfl rfl rfl
  exact ⟨(h.1 (Or.inl rfl)).2,
    (h.2.1 (PatientDetails.mk none none none none none) (Or.inl rfl)).2,
    h.2.2.1, h.2.2.2.1, h.2.2.2.2.1⟩

/-- C5 is false on the code for the status-update path: when the patient
save fails during updateAppointmentStatus, the response is a success with
no warning attached (the failure is only logged), even though a patient
mutation was attempted and lost: the inactive patient stays inactive. -/
theorem C5_counterexample :
    (updateAppointmentStatus (baseStore [apptPending] [patInactive]) 1000 adminUser 1
        "confirmed" none false).1.httpStatus = 200
    ∧ (updateAppointmentStatus (baseStore [apptPending] [patInactive]) 1000 adminUser 1
        "confirmed" none false).1.warning = none
    ∧ (updateAppointmentStatus (baseStore [apptPending] [patInactive]) 1000 adminUser 1
        "confirmed" none false).2.findAppointmentById 1
      = some (Appointment.mk 1 (some 3) 1 2 19900 540 "consultation" "confirmed"
          "" "" none none (some "ongoing") none none none false false none none)
    ∧ (updateAppointmentStatus (baseStore [apptPending] [patInactive]) 1000 adminUser 1
        "confirmed" none false).2.patients = [patInactive] := by
  decide

/-- C5 amended: the appointment mutation is never rolled back and the call
still reports success when the patient sync fails; updateTreatmentOutcome
attaches a warning describing the failure, but updateAppointmentStatus
attaches no warning at all (the failure is only logged). -/
theorem C5_side_effect_isolation_amended
    (st : Store) (now : Int) (user : User) (a : Appointment) (p : Patient)
    (oc : String) (dg ds : Option String) (te : Option Int)
    (hoc : oc = "successful" ∨ oc = "unsuccessful")
    (ha : st.findAppointmentById a.id = some a)
    (hauth : outcomeAuthError st user a = none)
    (hpid : a.patientId = some p.id) :
    (st.findPatientById p.id = none →
      (updateTreatmentOutcome st now user a.id ⟨dg, ds, some oc, te⟩ true).1.httpStatus = 200
      ∧ (updateTreatmentOutcome st now user a.id ⟨dg, ds, some oc, te⟩ true).1.warning
          = some "Patient record not found - status not updated"
      ∧ ∃ a2 : Appointment,
          (updateTreatmentOutcome st now user a.id
            ⟨dg, ds, some oc, te⟩ true).2.findAppointmentById a.id = some a2
          ∧ a2.status = "completed")
    ∧ (st.findPatientById p.id = some p →
      (updateTreatmentOutcome st now user a.id ⟨dg, ds, some oc, te⟩ false).1.httpStatus = 200
      ∧ (updateTreatmentOutcome st now user a.id ⟨dg, ds, some oc, te⟩ false).1.warning
          = some "Patient status update failed"
      ∧ (updateTreatmentOutcome st now user a.id ⟨dg, ds, some oc, te⟩ false).2.patients
          = st.patients
      ∧ ∃ a2 : Appointment,
          (updateTreatmentOutcome st now user a.id
            ⟨dg, ds, some oc, te⟩ false).2.findAppointmentById a.id = some a2
          ∧ a2.status = "completed")
    ∧ (∀ status : String, validAppointmentStatus status = true →
        st.findPatientById p.id = some p →
      (updateAppointmentStatus st now user a.id status none false).1.httpStatus = 200
      ∧ (updateAppointmentStatus st now user a.id status none false).1.warning = none
      ∧ (updateAppointmentStatus st now user a.id status none false).2.patients
          = st.patients
      ∧ ∃ a3 : Appointment,
          (updateAppointmentStatus st now user a.id
            status none false).2.findAppointmentById a.id = some a3
          ∧ a3.status = status) := by
  have hS : (st.findAppointmentById a.id).isSome := by simp [ha]
  refine ⟨?_, ?_, ?_⟩
  · intro hpn
    rcases hoc with rfl | rfl <;>
    · simp only [updateTreatmentOutcome, ha, hauth]
      simp [validOutcome, hpid, hpn]
      exact ⟨_, findAppointmentById_saveAppointment _ _ hS, rfl⟩
  · intro hp0
    rcases hoc with rfl | rfl <;>
    · simp only [updateTreatmentOutcome, ha, hauth]
      simp [validOutcome, hpid, hp0]
      exact ⟨_, findAppointmentById_saveAppointment _ _ hS, rfl⟩
  · intro status hv hp0
    simp only [updateAppointmentStatus, ha]
    simp [hv, hpid, hp0]
    exact ⟨_, findAppointmentById_saveAppointment _ _ hS, rfl⟩

/-- Witness for the amended C5 at concrete stores: a missing patient record
and a failing patient save both yield warned successes from the
outcome-recording path, while the status-update path yields an unwarned
success; no appointment change is rolled back. -/
theorem C5_side_effect_isolation_amended_witness :
    ((updateTreatmentOutcome (baseStore [apptPending] []) 1000 adminUser 1
        { treatmentOutcome := some "successful" } true).1.httpStatus = 200
      ∧ (updateTreatmentOutcome (baseStore [apptPending] []) 1000 adminUser 1
        { treatmentOutcome := some "successful" } true).1.warning
          = some "Patient record not found - status not updated"
      ∧ ∃ a2 : Appointment,
          (updateTreatmentOutcome (baseStore [apptPending] []) 1000 adminUser 1
            { treatmentOutcome := some "successful" } true).2.findAppointmentById 1
            = some a2
          ∧ a2.status = "completed")
    ∧ ((updateAppointmentStatus (baseStore [apptPending] [patActive]) 1000 adminUser 1
        "confirmed" none false).1.httpStatus = 200
      ∧ (updateAppointmentStatus (baseStore [apptPending] [patActive]) 1000 adminUser 1
        "confirmed" none false).1.warning = none) := by
  have h1 := C5_side_effect_isolation_amended (baseStore [apptPending] []) 1000
    adminUser apptPending patActive "successful" none none none (Or.inl rfl)
    rfl rfl rfl
  have h2 := C5_side_effect_isolation_amended (baseStore [apptPending] [patActive]) 1000
    adminUser apptPending patActive "successful" none none none (Or.inl rfl)
    rfl rfl rfl
  have hc := h2.2.2 "confirmed" rfl rfl
  exact ⟨h1.1 rfl, hc.1, hc.2.1⟩

/-- C9 is false on the code: updateAppointmentStatus reads the
previous-status metadata from the already-updated document, so for an
accepted pending-to-confirmed transition the single audit entry records
previousStatus "confirmed" (equal to the new status), not "pending". -/
theorem C9_counterexample :
    (baseStore [apptPending] [patActive]).findAppointmentById 1 = some apptPending
    ∧ apptPending.status = "pending"
    ∧ (updateAppointmentStatus (baseStore [apptPending] [patActive]) 1000 adminUser 1
        "confirmed" none true).2.activities.map
          (fun e => (e.action, e.metaPreviousStatus, e.metaNewStatus))
      = [("appointment_confirmed", some "confirmed", some "confirmed")] := by
  decide

/-- C9 amended: exactly one audit entry is appended per accepted status
update (when no patient flip occurs) and per outcome recording; but the
status-update entry's previous-status metadata always equals the new
status (it is read from the post-update document), the outcome-recording
entry carries no previous/new status metadata at all, and only the no-show
sweep entries record the true previous and new statuses. -/
theorem C9_audit_metadata_amended
    (st : Store) (now : Int) (user : User) (a : Appointment) (p : Patient)
    (status : String) (dg ds : Option String) (te : Option Int)
    (hv : validAppointmentStatus status = true)
    (ha : st.findAppointmentById a.id = some a)
    (hpid : a.patientId = some p.id)
    (hp : st.findPatientById p.id = some p)
    (hnoflip : (status == "confirmed" && p.status == "inactive") = false)
    (hauth : outcomeAuthError st user a = none) :
    (∃ e : Activity,
      (updateAppointmentStatus st now user a.id status none true).2.activities
        = st.activities ++ [e]
      ∧ e.subject = "appointment"
      ∧ e.action = statusActionLabel status
      ∧ e.metaPreviousStatus = some status
      ∧ e.metaNewStatus = some status)
    ∧ (∃ e : Activity,
      (updateTreatmentOutcome st now user a.id
          ⟨dg, ds, some "partial", te⟩ true).2.activities
        = st.activities ++ [e]
      ∧ e.action = "update_treatment"
      ∧ e.metaPreviousStatus = none
      ∧ e.metaNewStatus = none
      ∧ e.metaTreatmentOutcome = some "partial")
    ∧ (∀ x : Appointment,
      (sweepActivity x).metaPreviousStatus = some "confirmed"
      ∧ (sweepActivity x).metaNewStatus = some "not_appeared") := by
  refine ⟨?_, ?_, fun x => ⟨rfl, rfl⟩⟩
  · simp only [updateAppointmentStatus, ha]
    simp [hv, hpid, hp, hnoflip]
  · simp only [updateTreatmentOutcome, ha, hauth]
    simp [validOutcome]
    exact ⟨rfl, rfl, rfl, rfl⟩

/-- Witness for the amended C9 at the concrete store: the only entry of the
accepted pending-to-confirmed update carries previousStatus equal to the
new status; the outcome-recording entry carries no status metadata; the
sweep entry shape records confirmed to not_appeared. -/
theorem C9_audit_metadata_amended_witness :
    (∃ e : Activity,
      (updateAppointmentStatus (baseStore [apptPending] [patActive]) 1000 adminUser 1
          "confirmed" none true).2.activities = [e]
      ∧ e.subject = "appointment"
      ∧ e.action = "appointment_confirmed"
      ∧ e.metaPreviousStatus = some "confirmed"
      ∧ e.metaNewStatus = some "confirmed")
    ∧ (∃ e : Activity,
      (updateTreatmentOutcome (baseStore [apptPending] [patActive]) 1000 adminUser 1
          { treatmentOutcome := some "partial" } true).2.activities = [e]
      ∧ e.action = "update_treatment"
      ∧ e.metaPreviousStatus = none
      ∧ e.metaNewStatus = none
      ∧ e.metaTreatmentOutcome = some "partial")
    ∧ ((sweepActivity apptPending).metaPreviousStatus = some "confirmed"
      ∧ (sweepActivity apptPending).metaNewStatus = some "not_appeared") := by
  have h := C9_audit_metadata_amended (baseStore [apptPending] [patActive]) 1000
    adminUser apptPending patActive "confirmed" none none none
    rfl rfl rfl rfl rfl rfl
  exact ⟨h.1, h.2.1, h.2.2 apptPending⟩

end MediCare
